import Mathlib

/-!
Shallow embedding of `src/ebs_cleanup_lambda.py` (stale EBS snapshot
cleanup): the snapshot record model, the eligibility predicate
`should_delete_snapshot`, the exclusion-tag and AMI-reference checks, the
delete wrapper, the configuration/override resolution, and the handler's
accumulation loop over a paged listing. External AWS calls
(`describe_images`, `delete_snapshot`, pagination) are modelled by
explicit outcome values supplied per record.
-/

namespace EbsCleanup

/-- Decidable equality for `Except` results, so concrete runs of the
embedded functions can be checked by `decide`. -/
instance {ε α : Type} [DecidableEq ε] [DecidableEq α] : DecidableEq (Except ε α)
  | .error e, .error f =>
    if h : e = f then .isTrue (by rw [h])
    else .isFalse (by intro hc; cases hc; exact h rfl)
  | .error _, .ok _ => .isFalse (by intro hc; cases hc)
  | .ok _, .error _ => .isFalse (by intro hc; cases hc)
  | .ok a, .ok b =>
    if h : a = b then .isTrue (by rw [h])
    else .isFalse (by intro hc; cases hc; exact h rfl)

/-- Python `str.lower()` on the ASCII strings involved here, written by
structural recursion over the character list so that concrete instances
reduce in the kernel. -/
def pyLower (s : String) : String :=
  ⟨s.data.map Char.toLower⟩

/-- A Python `datetime` value: an epoch offset (UTC reading) plus a flag
recording whether the value is timezone-aware (`tzinfo is not None`). -/
structure PyDatetime where
  t : Int
  aware : Bool
deriving DecidableEq, Repr

/-- `datetime.isoformat()`, abstracted: the textual form contains the
timestamp, with a `+00:00` suffix exactly when the value is aware. -/
def isoformat (d : PyDatetime) : String :=
  toString d.t ++ (if d.aware then "+00:00" else "")

/-- The value stored under `"StartTime"` in a snapshot dict: either a
`datetime`, or any non-`datetime` Python value (`None`, a string, ...),
which `isinstance(start_time, datetime)` rejects. -/
inductive PyVal where
  | dt (d : PyDatetime)
  | other
deriving DecidableEq, Repr

/-- One element of a snapshot's `"Tags"` list. `t.get("Key")` yields
`None` when the key is absent, `t.get("Value", "")` defaults to `""`. -/
structure Tag where
  Key : Option String
  Value : Option String
deriving DecidableEq, Repr

/-- A snapshot dict as returned by `describe_snapshots`. Fields read with
`snapshot[...]` raise `KeyError` when absent, hence `Option` here;
fields read with `.get` also use `Option` with the Python default. -/
structure Snapshot where
  SnapshotId : Option String
  StartTime : Option PyVal
  State : Option String
  Tags : Option (List Tag)
  VolumeSize : Option Nat
deriving DecidableEq, Repr

/-- The module configuration taken from `EXCLUDE_TAG_KEY` /
`EXCLUDE_TAG_VALUE` (defaults `"Keep"` / `"true"`). -/
structure Config where
  EXCLUDE_TAG_KEY : String
  EXCLUDE_TAG_VALUE : String
deriving DecidableEq, Repr

/-- The Python exceptions the embedded code can raise. -/
inductive PyError where
  | keyError (k : String)
deriving DecidableEq, Repr

/-- Outcome of the `describe_images` call made by
`snapshot_used_by_any_ami` for one snapshot: a successful response
carrying the list of referencing image ids, a `ClientError`, or any
other exception. -/
inductive AmiLookup where
  | okImages (images : List String)
  | clientError
  | otherError
deriving DecidableEq, Repr

/-- Outcome of the `_ec2.delete_snapshot` call for one snapshot id:
success, a `ClientError` with message `str(e)`, or any other exception
with message `str(e)`. -/
inductive DeleteOutcome where
  | ok
  | clientError (msg : String)
  | otherError (msg : String)
deriving DecidableEq, Repr

/-- `snapshot_has_exclude_tag` (lines 62-70): true iff some tag's `Key`
equals `EXCLUDE_TAG_KEY` exactly and either `EXCLUDE_TAG_VALUE` is empty
or the tag's `Value` (default `""`) matches it case-insensitively. -/
def snapshot_has_exclude_tag (cfg : Config) (snapshot : Snapshot) : Bool :=
  let tags := snapshot.Tags.getD []
  tags.any fun t =>
    t.Key == some cfg.EXCLUDE_TAG_KEY &&
      (cfg.EXCLUDE_TAG_VALUE == "" ||
        pyLower (t.Value.getD "") == pyLower cfg.EXCLUDE_TAG_VALUE)

/-- `snapshot_used_by_any_ami` (lines 72-95): on a successful
`describe_images` response, true iff the image list is non-empty; on a
`ClientError` or any other exception, true (fail closed). -/
def snapshot_used_by_any_ami (lookup : AmiLookup) : Bool :=
  match lookup with
  | .okImages images => !images.isEmpty
  | .clientError => true
  | .otherError => true

/-- `should_delete_snapshot` (lines 110-139). The `snapshot["SnapshotId"]`
and `snapshot["StartTime"]` subscripts raise `KeyError` when absent, so
the result is an `Except`. Then, in source order: the lifecycle-state
check, the `isinstance(start_time, datetime)` check, the timezone
normalization, the age check, the exclusion-tag check and the
AMI-reference check. -/
def should_delete_snapshot (cfg : Config) (lookup : AmiLookup)
    (snapshot : Snapshot) (cutoff : Int) : Except PyError (Bool × String) :=
  match snapshot.SnapshotId with
  | none => .error (.keyError "SnapshotId")
  | some _ =>
    match snapshot.StartTime with
    | none => .error (.keyError "StartTime")
    | some st =>
      let state := pyLower (snapshot.State.getD "")
      if state ≠ "completed" then .ok (false, "state=" ++ state)
      else
        match st with
        | .other => .ok (false, "no start time")
        | .dt d0 =>
          let d := if d0.aware then d0 else { d0 with aware := true }
          if d.t > cutoff then
            .ok (false, "age less than retention (" ++ isoformat d ++ ")")
          else if snapshot_has_exclude_tag cfg snapshot then
            .ok (false, "excluded by tag " ++ cfg.EXCLUDE_TAG_KEY ++ "=" ++
              cfg.EXCLUDE_TAG_VALUE)
          else if snapshot_used_by_any_ami lookup then
            .ok (false, "referenced by AMI")
          else
            .ok (true, "eligible")

/-- `delete_snapshot` (lines 141-152): the call either succeeds
(`(True, "deleted")`) or raises, and every exception is caught and turned
into `(False, str(e))`; nothing escapes. -/
def delete_snapshot (outcome : DeleteOutcome) : Bool × String :=
  match outcome with
  | .ok => (true, "deleted")
  | .clientError msg => (false, msg)
  | .otherError msg => (false, msg)

/-- `build_cutoff` (lines 154-158): now (UTC) minus `retention_days`
days, with a day of 86400 seconds. -/
def build_cutoff (now : Int) (retention_days : Int) : Int :=
  now - retention_days * 86400

/-- One snapshot record together with the outcomes of the external calls
the handler would make for it. -/
structure RecEnv where
  snap : Snapshot
  ami : AmiLookup
  del : DeleteOutcome
deriving DecidableEq, Repr

/-- The `stats` dict built by `handler` (lines 185-192).
`skipped_reasons` is the insertion-ordered Python dict as an association
list. -/
structure Stats where
  total_scanned : Nat
  eligible : Nat
  deleted : Nat
  skipped : Nat
  errors : Nat
  skipped_reasons : List (String × Nat)
deriving DecidableEq, Repr

/-- The initial `stats` dict: all counters zero, no reasons. -/
def initStats : Stats :=
  { total_scanned := 0, eligible := 0, deleted := 0, skipped := 0
    errors := 0, skipped_reasons := [] }

/-- `stats["skipped_reasons"].setdefault(reason, 0)` followed by
`+= 1`: bump the reason's counter, appending it at the end on first
occurrence (Python dict insertion order). -/
def bumpReason (m : List (String × Nat)) (r : String) : List (String × Nat) :=
  match m with
  | [] => [(r, 1)]
  | (k, v) :: rest =>
    if k == r then (k, v + 1) :: rest else (k, v) :: bumpReason rest r

/-- `list_owned_snapshots` (lines 97-108): the paginator's pages are
drained in order and every snapshot of every page is yielded. -/
def list_owned_snapshots (pages : List (List RecEnv)) : List RecEnv :=
  pages.flatten

/-- The body of the `for snap in list_owned_snapshots()` loop in
`handler` (lines 194-226), also tracking (second component) how many
times the delete action was invoked. `total_scanned` is bumped before
the `try`; a `KeyError` out of `should_delete_snapshot` lands in the
per-resource `except` and bumps `errors`; an ineligible record bumps
`skipped` and its reason; an eligible record bumps `eligible`, then
under `dry_run` the loop continues without deleting, otherwise
`delete_snapshot` is invoked and success bumps `deleted`, failure bumps
`errors`. -/
def processSnapT (cfg : Config) (cutoff : Int) (dry_run : Bool)
    (acc : Stats × Nat) (e : RecEnv) : Stats × Nat :=
  let stats := { acc.1 with total_scanned := acc.1.total_scanned + 1 }
  let calls := acc.2
  match should_delete_snapshot cfg e.ami e.snap cutoff with
  | .error _ => ({ stats with errors := stats.errors + 1 }, calls)
  | .ok (eligible, reason) =>
    if eligible = false then
      ({ stats with skipped := stats.skipped + 1
                    skipped_reasons := bumpReason stats.skipped_reasons reason },
       calls)
    else
      let stats := { stats with eligible := stats.eligible + 1 }
      if dry_run then (stats, calls)
      else
        let res := delete_snapshot e.del
        if res.1 then
          ({ stats with deleted := stats.deleted + 1 }, calls + 1)
        else
          ({ stats with errors := stats.errors + 1 }, calls + 1)

/-- The `handler` loop (lines 194-226) over all pages, returning the
final stats and the number of delete-action invocations. -/
def handlerT (cfg : Config) (cutoff : Int) (dry_run : Bool)
    (pages : List (List RecEnv)) : Stats × Nat :=
  (list_owned_snapshots pages).foldl (processSnapT cfg cutoff dry_run)
    (initStats, 0)

/-- `handler`'s returned stats (line 233). -/
def handler (cfg : Config) (cutoff : Int) (dry_run : Bool)
    (pages : List (List RecEnv)) : Stats :=
  (handlerT cfg cutoff dry_run pages).1

/-- The relevant environment variables, each `os.getenv` result:
`none` when unset, otherwise the raw string. -/
structure Env where
  RETENTION_DAYS : Option String
  DRY_RUN : Option String
deriving DecidableEq, Repr

/-- Python truthiness of an `os.getenv` result: `None` and `""` are
falsy, any other string is truthy. -/
def truthyStr (v : Option String) : Bool :=
  match v with
  | none => false
  | some s => !(s == "")

/-- Accumulator pass over decimal digits; fails at the first
non-digit character. -/
def parseDigitsAux : List Char → Nat → Option Nat
  | [], acc => some acc
  | c :: cs, acc =>
    if c.isDigit then parseDigitsAux cs (acc * 10 + (c.toNat - 48)) else none

/-- Python `int(...)` on a decimal string: optional sign followed by at
least one digit, failing on anything else (surrounding whitespace and
underscore grouping, which Python also accepts, are not modelled). -/
def pyInt (s : String) : Option Int :=
  match s.data with
  | [] => none
  | '-' :: cs =>
    if cs.isEmpty then none
    else (parseDigitsAux cs 0).map fun n => -(n : Int)
  | '+' :: cs =>
    if cs.isEmpty then none
    else (parseDigitsAux cs 0).map fun n => (n : Int)
  | cs => (parseDigitsAux cs 0).map fun n => (n : Int)

/-- `get_env_int` (lines 30-37): default when the variable is unset,
`int(v)` otherwise, raising `ValueError` when unparsable. -/
def get_env_int (name : String) (v : Option String) (default : Int) :
    Except String Int :=
  match v with
  | none => .ok default
  | some s =>
    match pyInt s with
    | some n => .ok n
    | none =>
      .error ("Environment variable " ++ name ++
        " must be an integer, got " ++ s)

/-- The module-level `RETENTION_DAYS` (line 39): `get_env_int` with
default 30; an unparsable value aborts startup. -/
def module_retention_days (env : Env) : Except String Int :=
  get_env_int "RETENTION_DAYS" env.RETENTION_DAYS 30

/-- The module-level `DRY_RUN` (line 40): the raw value (default
`"true"`), lowercased, tested against `("1","true","yes","y")`. -/
def module_dry_run (env : Env) : Bool :=
  (["1", "true", "yes", "y"] : List String).contains
    (pyLower (env.DRY_RUN.getD "true"))

/-- The value found at `event["retention_days"]`: either one that
`int(...)` parses, or one on which `int(...)` raises. -/
inductive EventNum where
  | parsed (n : Int)
  | malformed
deriving DecidableEq, Repr

/-- The override event dict: optional `retention_days` and `dry_run`
entries; `bool(event["dry_run"])` is modelled by its Bool outcome. -/
structure Event where
  retention_days : Option EventNum
  dry_run : Option Bool
deriving DecidableEq, Repr

/-- The override block of `handler` (lines 167-177): start from the
module values; when the event dict has `retention_days` and
`os.getenv("RETENTION_DAYS")` is falsy, use `int(event["retention_days"])`
unless it raises, in which case the failure is logged and the module
value kept; symmetrically for `dry_run` (without a parse step). A
non-dict event leaves both module values in place. -/
def resolve_overrides (env : Env) (rd0 : Int) (dr0 : Bool)
    (event : Option Event) : Int × Bool :=
  match event with
  | none => (rd0, dr0)
  | some ev =>
    let rd :=
      if ev.retention_days.isSome && !truthyStr env.RETENTION_DAYS then
        match ev.retention_days with
        | some (.parsed n) => n
        | _ => rd0
      else rd0
    let dr :=
      if ev.dry_run.isSome && !truthyStr env.DRY_RUN then
        ev.dry_run.getD dr0
      else dr0
    (rd, dr)

/-! ### Sample values -/

/-- The default configuration: `EXCLUDE_TAG_KEY="Keep"`,
`EXCLUDE_TAG_VALUE="true"`. -/
def sampleCfg : Config :=
  { EXCLUDE_TAG_KEY := "Keep", EXCLUDE_TAG_VALUE := "true" }

/-- A completed, old (timestamp -100 against cutoff 0), untagged
snapshot. -/
def oldSnap : Snapshot :=
  { SnapshotId := some "snap-old", StartTime := some (.dt { t := -100, aware := true })
    State := some "completed", Tags := none, VolumeSize := none }

/-- Like `oldSnap` but tagged `keep=true`: the key differs from the
rule's `Keep` only in case. -/
def keyCaseSnap : Snapshot :=
  { oldSnap with SnapshotId := some "snap-keycase"
                 Tags := some [{ Key := some "keep", Value := some "true" }] }

/-- Like `oldSnap` but tagged `Keep=TRUE`: exact key, value differing
only in case. -/
def taggedSnap : Snapshot :=
  { oldSnap with SnapshotId := some "snap-tagged"
                 Tags := some [{ Key := some "Keep", Value := some "TRUE" }] }

/-- A completed untagged snapshot timestamped exactly at cutoff 0. -/
def boundarySnap : Snapshot :=
  { oldSnap with SnapshotId := some "snap-boundary"
                 StartTime := some (.dt { t := 0, aware := true }) }

/-- A completed snapshot whose record has no `StartTime` field at all. -/
def noStartSnap : Snapshot :=
  { oldSnap with SnapshotId := some "snap-nostart", StartTime := none }

/-- A completed snapshot whose `StartTime` holds a non-`datetime`
value. -/
def badStartSnap : Snapshot :=
  { oldSnap with SnapshotId := some "snap-badstart", StartTime := some .other }

/-- A pending snapshot whose `StartTime` holds a non-`datetime` value. -/
def badStartPendingSnap : Snapshot :=
  { badStartSnap with State := some "pending" }

/-- An eligible record whose delete call fails with a `ClientError`. -/
def failDelRec : RecEnv :=
  { snap := oldSnap, ami := .okImages [], del := .clientError "boom" }

/-- An eligible record whose delete call succeeds. -/
def okDelRec : RecEnv :=
  { snap := oldSnap, ami := .okImages [], del := .ok }

/-- Total of the per-reason counters in `skipped_reasons`. -/
def sumReasons (m : List (String × Nat)) : Nat :=
  (m.map Prod.snd).sum

/-- The Run Statistics invariants of claim C10. -/
def StatsInv (s : Stats) : Prop :=
  s.deleted ≤ s.eligible ∧
  s.eligible + s.skipped ≤ s.total_scanned ∧
  s.skipped = sumReasons s.skipped_reasons

/-! ### Helper lemmas -/

/-- A sample record that is eligible at any cutoff and under any
configuration: completed, timestamped exactly at the cutoff, untagged. -/
def eligibleSnap (cutoff : Int) : Snapshot :=
  { SnapshotId := some "snap-a", StartTime := some (.dt ⟨cutoff, true⟩)
    State := some "completed", Tags := none, VolumeSize := none }

theorem eligibleSnap_eval (cfg : Config) (cutoff : Int) :
    should_delete_snapshot cfg (.okImages []) (eligibleSnap cutoff) cutoff =
      .ok (true, "eligible") := by
  simp [should_delete_snapshot, eligibleSnap, snapshot_has_exclude_tag,
    snapshot_used_by_any_ami, pyLower]

/-- An eligible verdict needs the AMI check and the exclusion-tag check
to have both come back false. -/
theorem eligible_requires {cfg : Config} {lookup : AmiLookup}
    {snap : Snapshot} {cutoff : Int} {r : String}
    (h : should_delete_snapshot cfg lookup snap cutoff = .ok (true, r)) :
    snapshot_used_by_any_ami lookup = false ∧
    snapshot_has_exclude_tag cfg snap = false := by
  unfold should_delete_snapshot at h
  repeat' split at h
  all_goals try simp_all
  all_goals (repeat' split at h)
  all_goals simp_all

/-- Each loop iteration bumps `total_scanned` by exactly one. -/
theorem processSnapT_scanned (cfg : Config) (cutoff : Int) (dry_run : Bool)
    (acc : Stats × Nat) (e : RecEnv) :
    (processSnapT cfg cutoff dry_run acc e).1.total_scanned =
      acc.1.total_scanned + 1 := by
  unfold processSnapT
  cases hres : should_delete_snapshot cfg e.ami e.snap cutoff with
  | error err => simp
  | ok p =>
    obtain ⟨elig, reason⟩ := p
    cases elig <;> cases dry_run <;> cases hdel : e.del <;>
      simp [delete_snapshot]

/-- Under `dry_run = true` an iteration never touches `deleted` and never
invokes the delete action. -/
theorem processSnapT_dry (cfg : Config) (cutoff : Int)
    (acc : Stats × Nat) (e : RecEnv) :
    (processSnapT cfg cutoff true acc e).1.deleted = acc.1.deleted ∧
    (processSnapT cfg cutoff true acc e).2 = acc.2 := by
  unfold processSnapT
  cases hres : should_delete_snapshot cfg e.ami e.snap cutoff with
  | error err => simp
  | ok p =>
    obtain ⟨elig, reason⟩ := p
    cases elig <;> simp

/-- Folding the loop body under `dry_run = true` preserves `deleted` and
the delete-invocation count. -/
theorem foldl_dry (cfg : Config) (cutoff : Int)
    (l : List RecEnv) (acc : Stats × Nat) :
    (l.foldl (processSnapT cfg cutoff true) acc).1.deleted = acc.1.deleted ∧
    (l.foldl (processSnapT cfg cutoff true) acc).2 = acc.2 := by
  induction l generalizing acc with
  | nil => exact ⟨rfl, rfl⟩
  | cons e rest ih =>
    have hstep := processSnapT_dry cfg cutoff acc e
    have hrest := ih (processSnapT cfg cutoff true acc e)
    simp only [List.foldl_cons] at *
    exact ⟨hrest.1.trans hstep.1, hrest.2.trans hstep.2⟩

/-- Folding the loop body adds the list's length to `total_scanned`. -/
theorem foldl_scanned (cfg : Config) (cutoff : Int) (dry_run : Bool)
    (l : List RecEnv) (acc : Stats × Nat) :
    (l.foldl (processSnapT cfg cutoff dry_run) acc).1.total_scanned =
      acc.1.total_scanned + l.length := by
  induction l generalizing acc with
  | nil => simp
  | cons e rest ih =>
    have hstep := processSnapT_scanned cfg cutoff dry_run acc e
    have hrest := ih (processSnapT cfg cutoff dry_run acc e)
    simp only [List.foldl_cons, List.length_cons] at *
    omega

/-! ### Claim theorems -/

/-- C1: for every sequence of resource records, `run` with dryRun=true
never invokes the delete action and the returned statistics have
`deleted = 0`; moreover inputs with `eligible > 0` exist and still show
`deleted = 0` with no delete invocation. -/
theorem C1_dry_run_never_deletes (cfg : Config) (cutoff : Int)
    (pages : List (List RecEnv)) :
    (handlerT cfg cutoff true pages).2 = 0 ∧
    (handler cfg cutoff true pages).deleted = 0 ∧
    ∃ somePages : List (List RecEnv),
      0 < (handler cfg cutoff true somePages).eligible ∧
      (handlerT cfg cutoff true somePages).2 = 0 ∧
      (handler cfg cutoff true somePages).deleted = 0 := by
  have hall := foldl_dry cfg cutoff (list_owned_snapshots pages) (initStats, 0)
  refine ⟨hall.2, hall.1, ?_⟩
  refine ⟨[[{ snap := eligibleSnap cutoff, ami := .okImages [], del := .ok }]], ?_, ?_, ?_⟩
  · show 0 < (handlerT cfg cutoff true _).1.eligible
    unfold handlerT list_owned_snapshots
    simp only [List.flatten, List.append_nil, List.foldl_cons, List.foldl_nil]
    unfold processSnapT
    rw [eligibleSnap_eval cfg cutoff]
    simp [initStats]
  · exact (foldl_dry cfg cutoff _ (initStats, 0)).2
  · exact (foldl_dry cfg cutoff _ (initStats, 0)).1

/-- C2: for every record that passes the state, timestamp, age and tag
checks, a failing dependent-lookup call (`ClientError` or any other
exception from `describe_images`) makes `should_delete_snapshot` return
not-eligible with reason "referenced by AMI", and with a failing lookup
no record whatsoever is ever reported eligible. -/
theorem C2_lookup_error_fail_closed (cfg : Config) (lookup : AmiLookup)
    (snap : Snapshot) (cutoff : Int) (sid : String) (d : PyDatetime)
    (hid : snap.SnapshotId = some sid)
    (hst : snap.StartTime = some (.dt d))
    (hstate : pyLower (snap.State.getD "") = "completed")
    (hage : ¬ d.t > cutoff)
    (htag : snapshot_has_exclude_tag cfg snap = false)
    (herr : lookup = .clientError ∨ lookup = .otherError) :
    should_delete_snapshot cfg lookup snap cutoff =
      .ok (false, "referenced by AMI") ∧
    ∀ (snap2 : Snapshot) (cutoff2 : Int) (r : String),
      should_delete_snapshot cfg lookup snap2 cutoff2 ≠ .ok (true, r) := by
  have hused : snapshot_used_by_any_ami lookup = true := by
    rcases herr with h | h <;> rw [h] <;> rfl
  constructor
  · unfold should_delete_snapshot
    rw [hid, hst]
    simp only [hstate]
    obtain ⟨t, aware⟩ := d
    cases aware <;> simp_all [hused]
  · intro snap2 cutoff2 r hcon
    have := (eligible_requires hcon).1
    rw [hused] at this
    simp at this

/-- C2 witness: a concrete completed, old, untagged record together with
a throttled `describe_images` call is reported "referenced by AMI". -/
theorem C2_lookup_error_fail_closed_witness :
    should_delete_snapshot { EXCLUDE_TAG_KEY := "Keep", EXCLUDE_TAG_VALUE := "true" }
      .clientError
      { SnapshotId := some "snap-d", StartTime := some (.dt { t := -100, aware := true })
        State := some "completed", Tags := none, VolumeSize := none } 0 =
      .ok (false, "referenced by AMI") :=
  (C2_lookup_error_fail_closed
    { EXCLUDE_TAG_KEY := "Keep", EXCLUDE_TAG_VALUE := "true" } .clientError
    { SnapshotId := some "snap-d", StartTime := some (.dt { t := -100, aware := true })
      State := some "completed", Tags := none, VolumeSize := none } 0
    "snap-d" { t := -100, aware := true }
    rfl rfl (by decide) (by decide) (by decide) (Or.inl rfl)).1

/-- C3 counterexample: `snap-keycase` carries tag `keep=true`, whose key
matches the rule's `Keep` case-insensitively (and whose value matches),
yet the code does not treat it as excluded and reports the snapshot
eligible: the key comparison in `snapshot_has_exclude_tag` is exact. -/
theorem C3_counterexample :
    pyLower "keep" = pyLower "Keep" ∧
    pyLower "true" = pyLower "true" ∧
    snapshot_has_exclude_tag sampleCfg keyCaseSnap = false ∧
    should_delete_snapshot sampleCfg (.okImages []) keyCaseSnap 0 =
      .ok (true, "eligible") :=
  ⟨rfl, rfl, by decide, by decide⟩

/-- C3 amended: for every record with a tag whose key equals the rule's
key exactly (case-sensitively) and whose value matches the rule's value
case-insensitively, the exclusion check fires, `should_delete_snapshot`
never returns eligible, and when the state and age checks pass the
reason names the tag. -/
theorem C3_exclude_tag_exact_key (cfg : Config) (snap : Snapshot) (tag : Tag)
    (hmem : tag ∈ snap.Tags.getD [])
    (hkey : tag.Key = some cfg.EXCLUDE_TAG_KEY)
    (hval : pyLower (tag.Value.getD "") = pyLower cfg.EXCLUDE_TAG_VALUE) :
    snapshot_has_exclude_tag cfg snap = true ∧
    (∀ (lookup : AmiLookup) (cutoff : Int) (r : String),
      should_delete_snapshot cfg lookup snap cutoff ≠ .ok (true, r)) ∧
    (∀ (lookup : AmiLookup) (cutoff : Int) (sid : String) (d : PyDatetime),
      snap.SnapshotId = some sid → snap.StartTime = some (.dt d) →
      pyLower (snap.State.getD "") = "completed" → ¬ d.t > cutoff →
      should_delete_snapshot cfg lookup snap cutoff =
        .ok (false, "excluded by tag " ++ cfg.EXCLUDE_TAG_KEY ++ "=" ++
          cfg.EXCLUDE_TAG_VALUE)) := by
  have htag : snapshot_has_exclude_tag cfg snap = true := by
    unfold snapshot_has_exclude_tag
    simp only [List.any_eq_true]
    exact ⟨tag, hmem, by simp [hkey, hval]⟩
  refine ⟨htag, ?_, ?_⟩
  · intro lookup cutoff r hcon
    have := (eligible_requires hcon).2
    rw [htag] at this
    simp at this
  · intro lookup cutoff sid d hid hst hstate hage
    unfold should_delete_snapshot
    rw [hid, hst]
    simp only [hstate]
    obtain ⟨t, aware⟩ := d
    cases aware <;> simp_all [htag]

/-- C3 witness: the snapshot tagged `Keep=TRUE` (exact key, value
matching `true` case-insensitively) is excluded and, being completed and
old, skipped with the tag named in the reason. -/
theorem C3_exclude_tag_exact_key_witness :
    snapshot_has_exclude_tag sampleCfg taggedSnap = true ∧
    should_delete_snapshot sampleCfg (.okImages []) taggedSnap 0 =
      .ok (false, "excluded by tag " ++ sampleCfg.EXCLUDE_TAG_KEY ++ "=" ++
        sampleCfg.EXCLUDE_TAG_VALUE) := by
  have h := C3_exclude_tag_exact_key sampleCfg taggedSnap
    { Key := some "Keep", Value := some "TRUE" } (by decide) (by decide) (by decide)
  exact ⟨h.1, h.2.2 (.okImages []) 0 "snap-tagged" { t := -100, aware := true }
    (by decide) (by decide) (by decide) (by decide)⟩

/-- C4 counterexample: `snap-boundary` is timestamped exactly at the
cutoff, which the claim says is "not strictly older", hence not
eligible; the code's check `start_time > cutoff_dt` does not fire on
equality and the snapshot is reported eligible. -/
theorem C4_counterexample :
    should_delete_snapshot sampleCfg (.okImages []) boundarySnap 0 =
      .ok (true, "eligible") := by decide

/-- C4 amended: for every record in the actionable state whose timestamp
is strictly younger than the cutoff, `should_delete_snapshot` returns
not-eligible with a reason containing the timestamp, independent of the
record's tags and of the dependent-lookup outcome; a timestamp exactly
equal to the cutoff passes the age check instead. -/
theorem C4_age_check_strictly_younger (cfg : Config) (lookup : AmiLookup)
    (snap : Snapshot) (cutoff : Int) (sid : String) (d : PyDatetime)
    (hid : snap.SnapshotId = some sid)
    (hst : snap.StartTime = some (.dt d))
    (hstate : pyLower (snap.State.getD "") = "completed")
    (hyoung : d.t > cutoff) :
    should_delete_snapshot cfg lookup snap cutoff =
      .ok (false, "age less than retention (" ++
        isoformat { t := d.t, aware := true } ++ ")") := by
  unfold should_delete_snapshot
  rw [hid, hst]
  simp only [hstate]
  obtain ⟨t, aware⟩ := d
  cases aware <;> simp_all [isoformat]

/-- C4 witness: a completed snapshot timestamped 5 against cutoff 0 is
skipped with its timestamp in the reason, though tagged `Keep=TRUE` and
with a failing dependent lookup. -/
theorem C4_age_check_strictly_younger_witness :
    should_delete_snapshot sampleCfg .clientError
      { taggedSnap with StartTime := some (.dt { t := 5, aware := true }) } 0 =
      .ok (false, "age less than retention (" ++
        isoformat { t := 5, aware := true } ++ ")") :=
  C4_age_check_strictly_younger sampleCfg .clientError
    { taggedSnap with StartTime := some (.dt { t := 5, aware := true }) } 0
    "snap-tagged" { t := 5, aware := true } (by decide) (by decide)
    (by decide) (by decide)

/-- C5 counterexample: on a record with no `StartTime` field at all the
evaluation does not return "no start time"; the `snapshot["StartTime"]`
subscript raises a `KeyError` (caught only by the run loop, which counts
an error). -/
theorem C5_counterexample :
    should_delete_snapshot sampleCfg (.okImages []) noStartSnap 0 =
      .error (.keyError "StartTime") := by decide

/-- C5 amended: when the `StartTime` field is present but holds a
non-`datetime` value, evaluation returns not-eligible with reason
"no start time", and this check runs after the lifecycle-state check
(a non-actionable state wins); when the field is absent altogether the
evaluation raises a `KeyError` instead of returning. -/
theorem C5_no_start_time_cases (cfg : Config) (lookup : AmiLookup)
    (snap : Snapshot) (cutoff : Int) (sid : String)
    (hid : snap.SnapshotId = some sid) :
    (snap.StartTime = some .other → pyLower (snap.State.getD "") = "completed" →
      should_delete_snapshot cfg lookup snap cutoff =
        .ok (false, "no start time")) ∧
    (snap.StartTime = some .other → pyLower (snap.State.getD "") ≠ "completed" →
      should_delete_snapshot cfg lookup snap cutoff =
        .ok (false, "state=" ++ pyLower (snap.State.getD ""))) ∧
    (snap.StartTime = none →
      should_delete_snapshot cfg lookup snap cutoff =
        .error (.keyError "StartTime")) := by
  refine ⟨?_, ?_, ?_⟩
  · intro hst hstate
    unfold should_delete_snapshot
    rw [hid, hst]
    simp [hstate]
  · intro hst hstate
    unfold should_delete_snapshot
    rw [hid, hst]
    simp [hstate]
  · intro hst
    unfold should_delete_snapshot
    rw [hid, hst]

/-- C5 witness: a completed record with a non-`datetime` `StartTime` is
skipped with "no start time"; a pending one is skipped with its state;
one lacking the field raises `KeyError("StartTime")`. -/
theorem C5_no_start_time_cases_witness :
    should_delete_snapshot sampleCfg (.okImages []) badStartSnap 0 =
      .ok (false, "no start time") ∧
    should_delete_snapshot sampleCfg (.okImages []) badStartPendingSnap 0 =
      .ok (false, "state=" ++ pyLower (badStartPendingSnap.State.getD "")) ∧
    should_delete_snapshot sampleCfg (.okImages []) noStartSnap 0 =
      .error (.keyError "StartTime") :=
  ⟨(C5_no_start_time_cases sampleCfg (.okImages []) badStartSnap 0
      "snap-badstart" (by decide)).1 (by decide) (by decide),
   (C5_no_start_time_cases sampleCfg (.okImages []) badStartPendingSnap 0
      "snap-badstart" (by decide)).2.1 (by decide) (by decide),
   (C5_no_start_time_cases sampleCfg (.okImages []) noStartSnap 0
      "snap-nostart" (by decide)).2.2 (by decide)⟩

/-- C6: a failing delete call is returned as `(False, str(e))` rather
than escaping; under dryRun=false an eligible record whose delete fails
adds one to `errors`, leaves `deleted` unchanged, and the run still
processes the next record (both records of the page are scanned). -/
theorem C6_delete_failure_contained (cfg : Config) (cutoff : Int)
    (F G : RecEnv) (msg : String) (r : String)
    (helig : should_delete_snapshot cfg F.ami F.snap cutoff = .ok (true, r))
    (hfail : F.del = .clientError msg ∨ F.del = .otherError msg) :
    delete_snapshot F.del = (false, msg) ∧
    (∀ acc : Stats × Nat, processSnapT cfg cutoff false acc F =
      ({ acc.1 with total_scanned := acc.1.total_scanned + 1
                    eligible := acc.1.eligible + 1
                    errors := acc.1.errors + 1 }, acc.2 + 1)) ∧
    (handler cfg cutoff false [[F, G]]).total_scanned = 2 ∧
    handler cfg cutoff false [[F]] =
      { total_scanned := 1, eligible := 1, deleted := 0, skipped := 0
        errors := 1, skipped_reasons := [] } := by
  have hdel : delete_snapshot F.del = (false, msg) := by
    rcases hfail with h | h <;> rw [h] <;> rfl
  have hstep : ∀ acc : Stats × Nat, processSnapT cfg cutoff false acc F =
      ({ acc.1 with total_scanned := acc.1.total_scanned + 1
                    eligible := acc.1.eligible + 1
                    errors := acc.1.errors + 1 }, acc.2 + 1) := by
    intro acc
    unfold processSnapT
    rw [helig]
    simp [hdel]
  refine ⟨hdel, hstep, ?_, ?_⟩
  · unfold handler handlerT list_owned_snapshots
    simp only [List.flatten_cons, List.flatten_nil, List.append_nil,
      List.foldl_cons, List.foldl_nil]
    rw [hstep (initStats, 0)]
    rw [processSnapT_scanned]
    simp [initStats]
  · unfold handler handlerT list_owned_snapshots
    simp only [List.flatten_cons, List.flatten_nil, List.append_nil,
      List.foldl_cons, List.foldl_nil]
    rw [hstep (initStats, 0)]
    simp [initStats]

/-- C6 witness: the record `failDelRec` (eligible, delete raises a
`ClientError` "boom") yields a failure result, and a page holding it
followed by `okDelRec` still scans both records, ending with
`errors = 1`, `deleted = 0` for the failing one. -/
theorem C6_delete_failure_contained_witness :
    delete_snapshot failDelRec.del = (false, "boom") ∧
    (handler sampleCfg 0 false [[failDelRec, okDelRec]]).total_scanned = 2 ∧
    handler sampleCfg 0 false [[failDelRec]] =
      { total_scanned := 1, eligible := 1, deleted := 0, skipped := 0
        errors := 1, skipped_reasons := [] } :=
  let h := C6_delete_failure_contained sampleCfg 0 failDelRec okDelRec
    "boom" "eligible" (by decide) (Or.inl (by decide))
  ⟨h.1, h.2.2.1, h.2.2.2⟩

/-- C7: when the configured exclusion value is the empty string, a tag
whose key equals the rule's key excludes the resource no matter what the
tag's value is: the check fires and `should_delete_snapshot` never
returns eligible. -/
theorem C7_empty_value_excludes (cfg : Config) (snap : Snapshot) (tag : Tag)
    (hempty : cfg.EXCLUDE_TAG_VALUE = "")
    (hmem : tag ∈ snap.Tags.getD [])
    (hkey : tag.Key = some cfg.EXCLUDE_TAG_KEY) :
    snapshot_has_exclude_tag cfg snap = true ∧
    ∀ (lookup : AmiLookup) (cutoff : Int) (r : String),
      should_delete_snapshot cfg lookup snap cutoff ≠ .ok (true, r) := by
  have htag : snapshot_has_exclude_tag cfg snap = true := by
    unfold snapshot_has_exclude_tag
    simp only [List.any_eq_true]
    exact ⟨tag, hmem, by simp [hkey, hempty]⟩
  refine ⟨htag, ?_⟩
  intro lookup cutoff r hcon
  have := (eligible_requires hcon).2
  rw [htag] at this
  simp at this

/-- C7 witness: with `EXCLUDE_TAG_VALUE=""`, the snapshot tagged
`Keep=TRUE` is excluded by key presence alone and not reported
eligible. -/
theorem C7_empty_value_excludes_witness :
    snapshot_has_exclude_tag
      { EXCLUDE_TAG_KEY := "Keep", EXCLUDE_TAG_VALUE := "" } taggedSnap = true ∧
    should_delete_snapshot
      { EXCLUDE_TAG_KEY := "Keep", EXCLUDE_TAG_VALUE := "" }
      (.okImages []) taggedSnap 0 ≠ .ok (true, "eligible") :=
  let h := C7_empty_value_excludes
    { EXCLUDE_TAG_KEY := "Keep", EXCLUDE_TAG_VALUE := "" } taggedSnap
    { Key := some "Keep", Value := some "TRUE" } rfl (by decide) (by decide)
  ⟨h.1, h.2 (.okImages []) 0 "eligible"⟩

/-- `int(...)` never parses the empty string. -/
theorem pyInt_empty : pyInt "" = none := rfl

/-- C8: when the corresponding environment variable is set, the
environment value wins over an event override for `retention_days`
(startup having parsed it) and for `dry_run` (any non-empty setting);
and an event `retention_days` that `int(...)` cannot parse is ignored,
leaving the configured/default value in effect. -/
theorem C8_env_precedence_and_malformed_override
    (env : Env) (ev : Event) (rd0 : Int) (dr0 : Bool) :
    (∀ s : String, env.RETENTION_DAYS = some s →
      module_retention_days env = .ok rd0 →
      (resolve_overrides env rd0 dr0 (some ev)).1 = rd0) ∧
    (∀ s : String, env.DRY_RUN = some s → s ≠ "" →
      (resolve_overrides env rd0 dr0 (some ev)).2 = dr0) ∧
    (ev.retention_days = some .malformed →
      (resolve_overrides env rd0 dr0 (some ev)).1 = rd0) := by
  refine ⟨?_, ?_, ?_⟩
  · intro s hs hok
    have hne : s ≠ "" := by
      intro he
      subst he
      unfold module_retention_days get_env_int at hok
      rw [hs] at hok
      simp [pyInt_empty] at hok
    have htru : truthyStr env.RETENTION_DAYS = true := by
      rw [hs]
      unfold truthyStr
      simp [hne]
    unfold resolve_overrides
    simp [htru]
  · intro s hs hne
    have htru : truthyStr env.DRY_RUN = true := by
      rw [hs]
      unfold truthyStr
      simp [hne]
    unfold resolve_overrides
    simp [htru]
  · intro hmal
    unfold resolve_overrides
    by_cases hc : (ev.retention_days.isSome && !truthyStr env.RETENTION_DAYS) = true <;>
      simp [hc, hmal]

/-- C8 witness: with `RETENTION_DAYS=45` and `DRY_RUN=false` set in the
environment, an event asking for `retention_days=7, dry_run=true` is
ignored; and with no environment, a malformed event `retention_days`
leaves the default 30 in effect. -/
theorem C8_env_precedence_and_malformed_override_witness :
    (resolve_overrides { RETENTION_DAYS := some "45", DRY_RUN := some "false" }
      45 false (some { retention_days := some (.parsed 7), dry_run := some true })).1 = 45 ∧
    (resolve_overrides { RETENTION_DAYS := some "45", DRY_RUN := some "false" }
      45 false (some { retention_days := some (.parsed 7), dry_run := some true })).2 = false ∧
    (resolve_overrides { RETENTION_DAYS := none, DRY_RUN := none }
      30 true (some { retention_days := some .malformed, dry_run := none })).1 = 30 :=
  let h1 := C8_env_precedence_and_malformed_override
    { RETENTION_DAYS := some "45", DRY_RUN := some "false" }
    { retention_days := some (.parsed 7), dry_run := some true } 45 false
  let h2 := C8_env_precedence_and_malformed_override
    { RETENTION_DAYS := none, DRY_RUN := none }
    { retention_days := some .malformed, dry_run := none } 30 true
  ⟨h1.1 "45" rfl (by decide), h1.2.1 "false" rfl (by decide), h2.2.2 rfl⟩

/-- Drained pagination yields as many records as all pages hold. -/
theorem length_flatten_pages (pages : List (List RecEnv)) :
    (list_owned_snapshots pages).length = (pages.map List.length).sum := by
  unfold list_owned_snapshots
  induction pages with
  | nil => rfl
  | cons p rest ih => simp_all

/-- C9: the run consumes every page and every record: `total_scanned`
equals the total number of records across all pages. -/
theorem C9_all_pages_scanned (cfg : Config) (cutoff : Int) (dry_run : Bool)
    (pages : List (List RecEnv)) :
    (handler cfg cutoff dry_run pages).total_scanned =
      (pages.map List.length).sum := by
  unfold handler handlerT
  rw [foldl_scanned]
  rw [← length_flatten_pages]
  simp [initStats, list_owned_snapshots]

/-- Bumping a reason raises the per-reason total by exactly one. -/
theorem sumReasons_bumpReason (m : List (String × Nat)) (r : String) :
    sumReasons (bumpReason m r) = sumReasons m + 1 := by
  induction m with
  | nil => rfl
  | cons kv rest ih =>
    obtain ⟨k, v⟩ := kv
    unfold bumpReason
    by_cases h : (k == r) = true <;> simp [h, sumReasons] at * <;> omega

/-- Each loop iteration preserves the Run Statistics invariants. -/
theorem processSnapT_statsInv (cfg : Config) (cutoff : Int) (dry_run : Bool)
    (acc : Stats × Nat) (e : RecEnv) (h : StatsInv acc.1) :
    StatsInv (processSnapT cfg cutoff dry_run acc e).1 := by
  obtain ⟨h1, h2, h3⟩ := h
  unfold processSnapT StatsInv
  cases hres : should_delete_snapshot cfg e.ami e.snap cutoff with
  | error err => simp; omega
  | ok p =>
    obtain ⟨elig, reason⟩ := p
    cases elig with
    | false =>
      simp [sumReasons_bumpReason]
      omega
    | true =>
      cases dry_run with
      | true => simp; omega
      | false =>
        cases hdel : e.del <;> simp [delete_snapshot] <;> omega

/-- Folding the loop body preserves the Run Statistics invariants. -/
theorem foldl_statsInv (cfg : Config) (cutoff : Int) (dry_run : Bool)
    (l : List RecEnv) (acc : Stats × Nat) (h : StatsInv acc.1) :
    StatsInv ((l.foldl (processSnapT cfg cutoff dry_run) acc).1) := by
  induction l generalizing acc with
  | nil => exact h
  | cons e rest ih =>
    exact ih _ (processSnapT_statsInv cfg cutoff dry_run acc e h)

/-- C10: the returned Run Statistics always satisfy `deleted ≤ eligible`,
`eligible + skipped ≤ total_scanned`, and `skipped` equals the sum of
the per-reason counts of `skipped_reasons`. -/
theorem C10_stats_invariants (cfg : Config) (cutoff : Int) (dry_run : Bool)
    (pages : List (List RecEnv)) :
    (handler cfg cutoff dry_run pages).deleted ≤
      (handler cfg cutoff dry_run pages).eligible ∧
    (handler cfg cutoff dry_run pages).eligible +
      (handler cfg cutoff dry_run pages).skipped ≤
      (handler cfg cutoff dry_run pages).total_scanned ∧
    (handler cfg cutoff dry_run pages).skipped =
      sumReasons (handler cfg cutoff dry_run pages).skipped_reasons :=
  foldl_statsInv cfg cutoff dry_run (list_owned_snapshots pages)
    (initStats, 0) ⟨Nat.le_refl 0, Nat.le_refl 0, rfl⟩

end EbsCleanup
